import Mathlib

/-!
Shallow embedding of the `BinauralBeatsGenerator` class from `script.js`
(bee-neural-beats). Pure data (bands, presets, channel derivation) becomes
Lean functions; the mutable generator object becomes an explicit
`EngineState` record, and each method becomes a state-transforming function.
Scheduled Web Audio calls (`frequency.setValueAtTime`,
`gain.setValueAtTime`, `oscillator.start/stop`) are recorded in an
append-only event log so that theorems can speak about what was issued to
the audio graph. Numbers are modelled as rationals; node handles as `Nat`
ids drawn from an allocation counter.
-/

/-- One entry of `this.bands` in the constructor: `{ min, max, default }`. -/
structure Band where
  min : ℚ
  max : ℚ
  default : ℚ
deriving DecidableEq

/-- One entry of `this.presets` in the constructor: `{ carrier, beat, volume }`. -/
structure Preset where
  carrier : ℚ
  beat : ℚ
  volume : ℚ
deriving DecidableEq

/-- Lookup in the `this.bands` object literal (constructor, lines 16-22).
An object-literal property access yields `undefined` (here `none`) for a
key that is not one of the five band names. -/
def bands (band : String) : Option Band :=
  if band = "delta" then some ⟨1, 4, 2⟩
  else if band = "theta" then some ⟨4, 8, 6⟩
  else if band = "alpha" then some ⟨8, 13, 10⟩
  else if band = "beta" then some ⟨12, 30, 20⟩
  else if band = "gamma" then some ⟨30, 100, 40⟩
  else none

/-- Lookup in the `this.presets` object literal (constructor, lines 25-30). -/
def presets (presetName : String) : Option Preset :=
  if presetName = "meditation" then some ⟨400, 6, 40⟩
  else if presetName = "focus" then some ⟨400, 10, 50⟩
  else if presetName = "sleep" then some ⟨300, 2, 30⟩
  else if presetName = "creativity" then some ⟨500, 25, 60⟩
  else none

/-- The left-channel expression `carrierFreq - beatFreq / 2` that appears
verbatim in `play`, `updateCarrierFrequency`, `updateBeatFrequency` and
`updateDisplay`. -/
def deriveLeft (carrierHz beatHz : ℚ) : ℚ := carrierHz - beatHz / 2

/-- The right-channel expression `carrierFreq + beatFreq / 2` from the same
four sites. -/
def deriveRight (carrierHz beatHz : ℚ) : ℚ := carrierHz + beatHz / 2

/-- A scheduled Web Audio action issued by the generator. -/
inductive AudioEvent where
  | oscFreqSet (node : Nat) (freq : ℚ) (time : ℚ)
  | gainSet (node : Nat) (value : ℚ) (time : ℚ)
  | oscStart (node : Nat)
  | oscStop (node : Nat)
deriving DecidableEq

/-- The mutable fields of the `BinauralBeatsGenerator` instance together
with the DOM slider values it reads (`carrier-freq`, `beat-freq`,
`volume` inputs) and the audio clock. `nextNodeId` allocates fresh node
handles in creation order; `events` logs every scheduled audio call. -/
structure EngineState where
  hasContext : Bool
  currentTime : ℚ
  carrierInput : ℚ
  beatInput : ℚ
  volumeInput : ℚ
  leftOscillator : Option Nat
  rightOscillator : Option Nat
  gainNode : Option Nat
  isPlaying : Bool
  startTime : Option ℚ
  timerInterval : Bool
  wakeLock : Bool
  timerText : String
  nextNodeId : Nat
  events : List AudioEvent
  leftFreqDisplay : ℚ
  rightFreqDisplay : ℚ
deriving DecidableEq

/-- `if (osc) osc.frequency.setValueAtTime(freq, this.audioContext.currentTime)`. -/
def setOscFreq (s : EngineState) (osc : Option Nat) (freq : ℚ) : EngineState :=
  match osc with
  | some n => { s with events := s.events ++ [AudioEvent.oscFreqSet n freq s.currentTime] }
  | none => s

/-- `updateDisplay` (lines 421-436): recomputes the left/right readouts from
the current slider values; the textual `toFixed(1)` formatting is kept as
the raw rational value. -/
def updateDisplay (s : EngineState) : EngineState :=
  { s with
    leftFreqDisplay := s.carrierInput - s.beatInput / 2
    rightFreqDisplay := s.carrierInput + s.beatInput / 2 }

/-- `updateCarrierFrequency(frequency)` (lines 390-400). -/
def updateCarrierFrequency (s : EngineState) (frequency : ℚ) : EngineState :=
  let s1 :=
    if s.isPlaying then
      let beatFreq := s.beatInput
      let leftFreq := frequency - beatFreq / 2
      let rightFreq := frequency + beatFreq / 2
      setOscFreq (setOscFreq s s.leftOscillator leftFreq) s.rightOscillator rightFreq
    else s
  updateDisplay s1

/-- `updateBeatFrequency(frequency)` (lines 402-412). -/
def updateBeatFrequency (s : EngineState) (frequency : ℚ) : EngineState :=
  let s1 :=
    if s.isPlaying then
      let carrierFreq := s.carrierInput
      let leftFreq := carrierFreq - frequency / 2
      let rightFreq := carrierFreq + frequency / 2
      setOscFreq (setOscFreq s s.leftOscillator leftFreq) s.rightOscillator rightFreq
    else s
  updateDisplay s1

/-- `updateVolume(volume)` (lines 414-419): if the gain node handle is set,
schedule `volume / 100` on it; then refresh the display. No range check. -/
def updateVolume (s : EngineState) (volume : ℚ) : EngineState :=
  let s1 :=
    match s.gainNode with
    | some n => { s with events := s.events ++ [AudioEvent.gainSet n (volume / 100) s.currentTime] }
    | none => s
  updateDisplay s1

/-- `loadPreset(presetName)` (lines 376-388): guarded lookup — unknown
names return before touching anything; known presets write all three
sliders and push the new values through the update methods. -/
def loadPreset (s : EngineState) (presetName : String) : EngineState :=
  match presets presetName with
  | none => s
  | some preset =>
    let s1 := { s with
      carrierInput := preset.carrier
      beatInput := preset.beat
      volumeInput := preset.volume }
    let s2 := updateCarrierFrequency s1 preset.carrier
    let s3 := updateBeatFrequency s2 preset.beat
    let s4 := updateVolume s3 preset.volume
    updateDisplay s4

/-- `setFrequencyBand(band)` (lines 357-374). The lookup
`this.bands[band]` is unguarded: for an unknown band name it yields
`undefined` and the very next line reads `.default` of it, which throws a
TypeError; this is modelled as `none`. Known bands set the beat slider to
the band default and force the carrier slider to 400. -/
def setFrequencyBand (s : EngineState) (band : String) : Option EngineState :=
  match bands band with
  | none => none
  | some bandData =>
    let beatFreq := bandData.default
    let carrierFreq : ℚ := 400
    let s1 := { s with beatInput := beatFreq, carrierInput := carrierFreq }
    let s2 := updateBeatFrequency s1 beatFreq
    let s3 := updateCarrierFrequency s2 carrierFreq
    some (updateDisplay s3)

/-- `play()` (lines 446-523). With no audio context it shows an error and
returns unchanged. Otherwise it reads the sliders, computes the channel
frequencies, creates seven nodes in source order (left oscillator, right
oscillator, leftGain, rightGain, master gainNode, two panners), schedules
the frequencies and the master gain, starts both oscillators, sets the
running flag, captures the start clock time, starts the timer interval and
requests the wake lock. There is no `isPlaying` guard. -/
def play (s : EngineState) : EngineState :=
  if s.hasContext then
    let carrierFreq := s.carrierInput
    let beatFreq := s.beatInput
    let volume := s.volumeInput
    let leftFreq := carrierFreq - beatFreq / 2
    let rightFreq := carrierFreq + beatFreq / 2
    let leftOsc := s.nextNodeId
    let rightOsc := s.nextNodeId + 1
    let gain := s.nextNodeId + 4
    { s with
      leftOscillator := some leftOsc
      rightOscillator := some rightOsc
      gainNode := some gain
      nextNodeId := s.nextNodeId + 7
      events := s.events ++
        [AudioEvent.oscFreqSet leftOsc leftFreq s.currentTime,
         AudioEvent.oscFreqSet rightOsc rightFreq s.currentTime,
         AudioEvent.gainSet gain (volume / 100) s.currentTime,
         AudioEvent.oscStart leftOsc,
         AudioEvent.oscStart rightOsc]
      isPlaying := true
      startTime := some s.currentTime
      timerInterval := true
      wakeLock := true }
  else s

/-- `stopTimer()` (lines 584-589). -/
def stopTimer (s : EngineState) : EngineState :=
  if s.timerInterval then { s with timerInterval := false } else s

/-- `releaseWakeLock()` (lines 559-564). -/
def releaseWakeLock (s : EngineState) : EngineState :=
  if s.wakeLock then { s with wakeLock := false } else s

/-- `pause()` (lines 525-542): stops and nulls each oscillator handle that
is set, clears the running flag, cancels the timer and releases the wake
lock. The master `gainNode` handle is not touched. -/
def pause (s : EngineState) : EngineState :=
  let s1 :=
    match s.leftOscillator with
    | some n => { s with events := s.events ++ [AudioEvent.oscStop n], leftOscillator := none }
    | none => s
  let s2 :=
    match s1.rightOscillator with
    | some n => { s1 with events := s1.events ++ [AudioEvent.oscStop n], rightOscillator := none }
    | none => s1
  releaseWakeLock (stopTimer { s2 with isPlaying := false })

/-- `stop()` (lines 566-570): `pause()`, then clear the start time and
reset the timer readout. -/
def stop (s : EngineState) : EngineState :=
  let s1 := pause s
  { s1 with startTime := none, timerText := "00:00" }

/-- `togglePlayback()` (lines 438-444). -/
def togglePlayback (s : EngineState) : EngineState :=
  if s.isPlaying then pause s else play s

/-- JavaScript `Math.trunc`-style truncation of a rational toward zero,
the rounding used by the `%` remainder operator. -/
def jsTrunc (q : ℚ) : ℤ := if 0 ≤ q then ⌊q⌋ else -⌊-q⌋

/-- JavaScript `a % b`: remainder with the sign of the dividend. -/
def jsFmod (a b : ℚ) : ℚ := a - b * (jsTrunc (a / b) : ℚ)

/-- `toString().padStart(2, '0')` on a nonnegative integer. -/
def pad2 (n : ℤ) : String :=
  let str := toString n
  if str.length < 2 then "0" ++ str else str

/-- The body of the `startTimer` interval callback (lines 573-581):
`minutes = Math.floor(elapsed / 60)`, `seconds = Math.floor(elapsed % 60)`,
rendered `MM:SS` with `padStart(2, '0')`. -/
def formatElapsed (elapsed : ℚ) : String :=
  let minutes : ℤ := ⌊elapsed / 60⌋
  let seconds : ℤ := ⌊jsFmod elapsed 60⌋
  pad2 minutes ++ ":" ++ pad2 seconds

/-- One firing of the `setInterval` callback installed by `startTimer`
(lines 572-582). It runs only while the interval is registered, and the
JS guard `if (this.startTime)` skips the body when `startTime` is null or
the (falsy) clock value 0. -/
def timerTick (s : EngineState) : EngineState :=
  if s.timerInterval then
    match s.startTime with
    | some t0 =>
      if t0 = 0 then s
      else { s with timerText := formatElapsed (s.currentTime - t0) }
    | none => s
  else s

/-- The audio clock advancing by `dt`: `audioContext.currentTime` is
monotone and owned by the platform, not the generator. -/
def advanceClock (s : EngineState) (dt : ℚ) : EngineState :=
  { s with currentTime := s.currentTime + dt }

/-- DOM `input` handler of the carrier slider (lines 328-330): the DOM
value changes, then `updateCarrierFrequency(parseFloat(value))` runs. -/
def setCarrierSlider (s : EngineState) (v : ℚ) : EngineState :=
  updateCarrierFrequency { s with carrierInput := v } v

/-- DOM `input` handler of the beat slider (lines 332-334). -/
def setBeatSlider (s : EngineState) (v : ℚ) : EngineState :=
  updateBeatFrequency { s with beatInput := v } v

/-- DOM `input` handler of the volume slider (lines 336-338). -/
def setVolumeSlider (s : EngineState) (v : ℚ) : EngineState :=
  updateVolume { s with volumeInput := v } v

/-- The externally triggerable operations on a generator instance. -/
inductive Op where
  | play
  | pause
  | stop
  | togglePlayback
  | timerTick
  | advanceClock (dt : ℚ)
  | setCarrierSlider (v : ℚ)
  | setBeatSlider (v : ℚ)
  | setVolumeSlider (v : ℚ)
  | updateVolume (v : ℚ)
  | loadPreset (presetName : String)
  | setFrequencyBand (band : String)

/-- Small-step semantics of one operation; `none` is an uncaught throw
(only `setFrequencyBand` on an unknown band). -/
def stepOp (s : EngineState) : Op → Option EngineState
  | Op.play => some (play s)
  | Op.pause => some (pause s)
  | Op.stop => some (stop s)
  | Op.togglePlayback => some (togglePlayback s)
  | Op.timerTick => some (timerTick s)
  | Op.advanceClock dt => some (advanceClock s dt)
  | Op.setCarrierSlider v => some (setCarrierSlider s v)
  | Op.setBeatSlider v => some (setBeatSlider s v)
  | Op.setVolumeSlider v => some (setVolumeSlider s v)
  | Op.updateVolume v => some (updateVolume s v)
  | Op.loadPreset nm => some (loadPreset s nm)
  | Op.setFrequencyBand nm => setFrequencyBand s nm

/-- Run a sequence of operations, stopping at the first uncaught throw. -/
def runOps (s : EngineState) : List Op → Option EngineState
  | [] => some s
  | op :: ops =>
    match stepOp s op with
    | some s2 => runOps s2 ops
    | none => none

/-- A concrete idle state used by the concrete-input theorems: audio
context enabled, sliders at carrier 400 Hz, beat 10 Hz, volume 50 %, clock
at 5 s, no nodes yet. -/
def initState : EngineState :=
  { hasContext := true
    currentTime := 5
    carrierInput := 400
    beatInput := 10
    volumeInput := 50
    leftOscillator := none
    rightOscillator := none
    gainNode := none
    isPlaying := false
    startTime := none
    timerInterval := false
    wakeLock := false
    timerText := "00:00"
    nextNodeId := 0
    events := []
    leftFreqDisplay := 395
    rightFreqDisplay := 405 }

/-- The state right after one successful `play()` from `initState`. -/
def runningState : EngineState := play initState

/-- `initState` with the two slider values that drive the left channel
non-positive: carrier 1 Hz, beat 4 Hz. -/
def lowState : EngineState := { initState with carrierInput := 1, beatInput := 4 }

/-- An idle state that retains a master gain handle from a torn-down
session, as left behind by `play()` followed by `pause()`/`stop()`. -/
def gainState : EngineState := { initState with gainNode := some 4 }

/-- A running-shaped state for the timer theorems: started at clock 5,
sampled at clock 8. -/
def timerState : EngineState :=
  { initState with startTime := some 5, timerInterval := true, currentTime := 8 }

section FrameLemmas

variable (s : EngineState) (o : Option Nat) (f v : ℚ) (nm : String)

@[simp] theorem setOscFreq_gainNode : (setOscFreq s o f).gainNode = s.gainNode := by
  cases o <;> rfl

@[simp] theorem setOscFreq_carrierInput : (setOscFreq s o f).carrierInput = s.carrierInput := by
  cases o <;> rfl

@[simp] theorem setOscFreq_beatInput : (setOscFreq s o f).beatInput = s.beatInput := by
  cases o <;> rfl

@[simp] theorem setOscFreq_volumeInput : (setOscFreq s o f).volumeInput = s.volumeInput := by
  cases o <;> rfl

@[simp] theorem setOscFreq_isPlaying : (setOscFreq s o f).isPlaying = s.isPlaying := by
  cases o <;> rfl

@[simp] theorem setOscFreq_leftOscillator :
    (setOscFreq s o f).leftOscillator = s.leftOscillator := by cases o <;> rfl

@[simp] theorem setOscFreq_rightOscillator :
    (setOscFreq s o f).rightOscillator = s.rightOscillator := by cases o <;> rfl

@[simp] theorem setOscFreq_startTime : (setOscFreq s o f).startTime = s.startTime := by
  cases o <;> rfl

@[simp] theorem setOscFreq_timerInterval : (setOscFreq s o f).timerInterval = s.timerInterval := by
  cases o <;> rfl

@[simp] theorem setOscFreq_currentTime : (setOscFreq s o f).currentTime = s.currentTime := by
  cases o <;> rfl

@[simp] theorem updateDisplay_gainNode : (updateDisplay s).gainNode = s.gainNode := rfl

@[simp] theorem updateDisplay_carrierInput : (updateDisplay s).carrierInput = s.carrierInput := rfl

@[simp] theorem updateDisplay_beatInput : (updateDisplay s).beatInput = s.beatInput := rfl

@[simp] theorem updateDisplay_volumeInput : (updateDisplay s).volumeInput = s.volumeInput := rfl

@[simp] theorem updateDisplay_isPlaying : (updateDisplay s).isPlaying = s.isPlaying := rfl

@[simp] theorem updateDisplay_events : (updateDisplay s).events = s.events := rfl

@[simp] theorem updateDisplay_leftFreq :
    (updateDisplay s).leftFreqDisplay = s.carrierInput - s.beatInput / 2 := rfl

@[simp] theorem updateDisplay_rightFreq :
    (updateDisplay s).rightFreqDisplay = s.carrierInput + s.beatInput / 2 := rfl

@[simp] theorem updateCarrierFrequency_gainNode :
    (updateCarrierFrequency s f).gainNode = s.gainNode := by
  unfold updateCarrierFrequency; split <;> simp

@[simp] theorem updateCarrierFrequency_carrierInput :
    (updateCarrierFrequency s f).carrierInput = s.carrierInput := by
  unfold updateCarrierFrequency; split <;> simp

@[simp] theorem updateCarrierFrequency_beatInput :
    (updateCarrierFrequency s f).beatInput = s.beatInput := by
  unfold updateCarrierFrequency; split <;> simp

@[simp] theorem updateCarrierFrequency_volumeInput :
    (updateCarrierFrequency s f).volumeInput = s.volumeInput := by
  unfold updateCarrierFrequency; split <;> simp

@[simp] theorem updateBeatFrequency_gainNode :
    (updateBeatFrequency s f).gainNode = s.gainNode := by
  unfold updateBeatFrequency; split <;> simp

@[simp] theorem updateBeatFrequency_carrierInput :
    (updateBeatFrequency s f).carrierInput = s.carrierInput := by
  unfold updateBeatFrequency; split <;> simp

@[simp] theorem updateBeatFrequency_beatInput :
    (updateBeatFrequency s f).beatInput = s.beatInput := by
  unfold updateBeatFrequency; split <;> simp

@[simp] theorem updateBeatFrequency_volumeInput :
    (updateBeatFrequency s f).volumeInput = s.volumeInput := by
  unfold updateBeatFrequency; split <;> simp

@[simp] theorem updateVolume_gainNode : (updateVolume s v).gainNode = s.gainNode := by
  unfold updateVolume; cases h : s.gainNode <;> simp [h]

@[simp] theorem updateVolume_carrierInput : (updateVolume s v).carrierInput = s.carrierInput := by
  unfold updateVolume; cases h : s.gainNode <;> simp [h]

@[simp] theorem updateVolume_beatInput : (updateVolume s v).beatInput = s.beatInput := by
  unfold updateVolume; cases h : s.gainNode <;> simp [h]

@[simp] theorem updateVolume_volumeInput : (updateVolume s v).volumeInput = s.volumeInput := by
  unfold updateVolume; cases h : s.gainNode <;> simp [h]

@[simp] theorem loadPreset_gainNode : (loadPreset s nm).gainNode = s.gainNode := by
  unfold loadPreset; cases h : presets nm <;> simp [h]

@[simp] theorem stopTimer_gainNode : (stopTimer s).gainNode = s.gainNode := by
  unfold stopTimer; split <;> rfl

@[simp] theorem releaseWakeLock_gainNode : (releaseWakeLock s).gainNode = s.gainNode := by
  unfold releaseWakeLock; split <;> rfl

@[simp] theorem pause_gainNode : (pause s).gainNode = s.gainNode := by
  unfold pause
  cases hl : s.leftOscillator <;> cases hr : s.rightOscillator <;> simp [hl, hr]

@[simp] theorem pause_leftOscillator : (pause s).leftOscillator = none := by
  unfold pause stopTimer releaseWakeLock
  cases hl : s.leftOscillator <;> cases hr : s.rightOscillator <;>
    simp [hl, hr] <;> split <;> simp <;> split <;> simp

@[simp] theorem pause_rightOscillator : (pause s).rightOscillator = none := by
  unfold pause stopTimer releaseWakeLock
  cases hl : s.leftOscillator <;> cases hr : s.rightOscillator <;>
    simp [hl, hr] <;> split <;> simp <;> split <;> simp

@[simp] theorem pause_isPlaying : (pause s).isPlaying = false := by
  unfold pause stopTimer releaseWakeLock
  cases hl : s.leftOscillator <;> cases hr : s.rightOscillator <;>
    simp [hl, hr] <;> split <;> simp <;> split <;> simp

@[simp] theorem pause_timerInterval : (pause s).timerInterval = false := by
  unfold pause stopTimer releaseWakeLock
  cases hl : s.leftOscillator <;> cases hr : s.rightOscillator <;>
    simp only [hl, hr] <;> (repeat' split) <;> simp_all

@[simp] theorem pause_startTime : (pause s).startTime = s.startTime := by
  unfold pause stopTimer releaseWakeLock
  cases hl : s.leftOscillator <;> cases hr : s.rightOscillator <;>
    simp [hl, hr] <;> split <;> simp <;> split <;> simp

@[simp] theorem stop_gainNode : (stop s).gainNode = s.gainNode := by
  unfold stop; simp

@[simp] theorem stop_leftOscillator : (stop s).leftOscillator = none := by
  unfold stop; simp

@[simp] theorem stop_rightOscillator : (stop s).rightOscillator = none := by
  unfold stop; simp

@[simp] theorem stop_isPlaying : (stop s).isPlaying = false := by
  unfold stop; simp

@[simp] theorem stop_timerInterval : (stop s).timerInterval = false := by
  unfold stop; simp

@[simp] theorem stop_startTime : (stop s).startTime = none := rfl

@[simp] theorem stop_timerText : (stop s).timerText = "00:00" := rfl

@[simp] theorem timerTick_gainNode : (timerTick s).gainNode = s.gainNode := by
  unfold timerTick
  split
  · cases h : s.startTime <;> simp [h] <;> split <;> rfl
  · rfl

@[simp] theorem advanceClock_gainNode (dt : ℚ) : (advanceClock s dt).gainNode = s.gainNode := rfl

@[simp] theorem setCarrierSlider_gainNode : (setCarrierSlider s v).gainNode = s.gainNode := by
  simp [setCarrierSlider]

@[simp] theorem setBeatSlider_gainNode : (setBeatSlider s v).gainNode = s.gainNode := by
  simp [setBeatSlider]

@[simp] theorem setVolumeSlider_gainNode : (setVolumeSlider s v).gainNode = s.gainNode := by
  simp [setVolumeSlider]

end FrameLemmas

theorem play_gainNode_isSome (s : EngineState) (hg : s.gainNode.isSome) :
    (play s).gainNode.isSome := by
  unfold play; split <;> simp [hg]

theorem togglePlayback_gainNode_isSome (s : EngineState) (hg : s.gainNode.isSome) :
    (togglePlayback s).gainNode.isSome := by
  unfold togglePlayback; split
  · simpa using hg
  · exact play_gainNode_isSome s hg

theorem setFrequencyBand_gainNode (s s2 : EngineState) (nm : String)
    (h : setFrequencyBand s nm = some s2) : s2.gainNode = s.gainNode := by
  unfold setFrequencyBand at h
  cases hb : bands nm
  · rw [hb] at h; simp at h
  · rw [hb] at h
    simp only [Option.some.injEq] at h
    subst h
    simp

theorem stepOp_gainNode_isSome (s s2 : EngineState) (op : Op)
    (h : stepOp s op = some s2) (hg : s.gainNode.isSome) : s2.gainNode.isSome := by
  cases op with
  | play =>
    simp only [stepOp, Option.some.injEq] at h; subst h
    exact play_gainNode_isSome s hg
  | togglePlayback =>
    simp only [stepOp, Option.some.injEq] at h; subst h
    exact togglePlayback_gainNode_isSome s hg
  | setFrequencyBand nm =>
    have hgn := setFrequencyBand_gainNode s s2 nm h
    rw [hgn]; exact hg
  | pause => simp only [stepOp, Option.some.injEq] at h; subst h; simpa using hg
  | stop => simp only [stepOp, Option.some.injEq] at h; subst h; simpa using hg
  | timerTick => simp only [stepOp, Option.some.injEq] at h; subst h; simpa using hg
  | advanceClock dt => simp only [stepOp, Option.some.injEq] at h; subst h; simpa using hg
  | setCarrierSlider v => simp only [stepOp, Option.some.injEq] at h; subst h; simpa using hg
  | setBeatSlider v => simp only [stepOp, Option.some.injEq] at h; subst h; simpa using hg
  | setVolumeSlider v => simp only [stepOp, Option.some.injEq] at h; subst h; simpa using hg
  | updateVolume v => simp only [stepOp, Option.some.injEq] at h; subst h; simpa using hg
  | loadPreset nm => simp only [stepOp, Option.some.injEq] at h; subst h; simpa using hg

theorem runOps_gainNode_isSome (ops : List Op) :
    ∀ s s2 : EngineState, runOps s ops = some s2 → s.gainNode.isSome → s2.gainNode.isSome := by
  induction ops with
  | nil =>
    intro s s2 h hg
    simp only [runOps, Option.some.injEq] at h
    subst h; exact hg
  | cons op ops ih =>
    intro s s2 h hg
    cases hstep : stepOp s op with
    | none => rw [runOps, hstep] at h; cases h
    | some s1 =>
      rw [runOps, hstep] at h
      exact ih s1 s2 h (stepOp_gainNode_isSome s s1 op hstep hg)

theorem stop_idem (s : EngineState) : stop (stop s) = stop s := by
  obtain ⟨hc, ct, ci, bi, vi, lo, ro, gn, ip, st, ti, wl, tt, ni, ev, lf, rf⟩ := s
  cases lo <;> cases ro <;> cases ti <;> cases wl <;> rfl

theorem formatElapsed_three : formatElapsed 3 = "00:03" := by
  have h1 : ⌊(3 : ℚ) / 60⌋ = 0 := by norm_num
  have h2 : jsFmod 3 60 = 3 := by norm_num [jsFmod, jsTrunc]
  simp [formatElapsed, h1, h2, pad2]
  decide

theorem formatElapsed_hundred : formatElapsed 6003 = "100:03" := by
  have h1 : ⌊(6003 : ℚ) / 60⌋ = 100 := by norm_num
  have h2 : jsFmod 6003 60 = 3 := by norm_num [jsFmod, jsTrunc]
  simp [formatElapsed, h1, h2, pad2]
  decide


/-- Claim C1: for every carrierHz and beatHz with 0 ≤ beatHz ≤ 2·carrierHz,
the channel derivation used throughout the engine (left = carrier − beat/2,
right = carrier + beat/2, as computed in play, updateCarrierFrequency,
updateBeatFrequency and updateDisplay) satisfies left + right = 2·carrier
and right − left = beat; the same law holds for the values updateDisplay
writes to the readout. -/
theorem deriveChannels_sum_diff (carrierHz beatHz : ℚ) (h0 : 0 ≤ beatHz)
    (h2 : beatHz ≤ 2 * carrierHz) :
    deriveLeft carrierHz beatHz + deriveRight carrierHz beatHz = 2 * carrierHz ∧
    deriveRight carrierHz beatHz - deriveLeft carrierHz beatHz = beatHz ∧
    (∀ s : EngineState, s.carrierInput = carrierHz → s.beatInput = beatHz →
      (updateDisplay s).leftFreqDisplay + (updateDisplay s).rightFreqDisplay = 2 * carrierHz ∧
      (updateDisplay s).rightFreqDisplay - (updateDisplay s).leftFreqDisplay = beatHz) := by
  refine ⟨by unfold deriveLeft deriveRight; ring, by unfold deriveLeft deriveRight; ring, ?_⟩
  intro s hcs hbs
  constructor <;> simp [hcs, hbs] <;> ring

/-- Witness for C1 at carrier 400 Hz, beat 10 Hz. -/
theorem deriveChannels_sum_diff_witness :
    (0 : ℚ) ≤ 10 ∧ (10 : ℚ) ≤ 2 * 400 ∧
    (deriveLeft 400 10 + deriveRight 400 10 = 2 * 400 ∧
     deriveRight 400 10 - deriveLeft 400 10 = 10 ∧
     (∀ s : EngineState, s.carrierInput = 400 → s.beatInput = 10 →
       (updateDisplay s).leftFreqDisplay + (updateDisplay s).rightFreqDisplay = 2 * 400 ∧
       (updateDisplay s).rightFreqDisplay - (updateDisplay s).leftFreqDisplay = 10)) :=
  ⟨by norm_num, by norm_num, deriveChannels_sum_diff 400 10 (by norm_num) (by norm_num)⟩

/-- Counterexample to claim C2: at carrier 1 Hz, beat 4 Hz the derived left
frequency is −1 Hz and play schedules exactly that value on the left
oscillator; the claimed 0.1 Hz floor is never issued. -/
theorem derive_no_clamp_counterexample :
    deriveLeft 1 4 = -1 ∧
    AudioEvent.oscFreqSet 0 (-1) 5 ∈ (play lowState).events ∧
    AudioEvent.oscFreqSet 0 (1 / 10) 5 ∉ (play lowState).events := by
  refine ⟨by norm_num [deriveLeft], ?_, ?_⟩
  · simp [play, lowState, initState]
    norm_num
  · simp [play, lowState, initState]
    norm_num

/-- Claim C2 as amended: when the derived left frequency carrier − beat/2
would be ≤ 0, play passes that non-positive value through to the left
oscillator unchanged — no minimum audible floor is applied anywhere in the
derivation. -/
theorem derive_no_floor_applied (s : EngineState) (hc : s.hasContext = true)
    (hneg : s.carrierInput - s.beatInput / 2 ≤ 0) :
    deriveLeft s.carrierInput s.beatInput = s.carrierInput - s.beatInput / 2 ∧
    deriveLeft s.carrierInput s.beatInput ≤ 0 ∧
    AudioEvent.oscFreqSet s.nextNodeId (s.carrierInput - s.beatInput / 2) s.currentTime
      ∈ (play s).events := by
  refine ⟨rfl, by simpa [deriveLeft] using hneg, ?_⟩
  simp [play, hc]

/-- Witness for the amended C2 at carrier 1 Hz, beat 4 Hz. -/
theorem derive_no_floor_applied_witness :
    lowState.hasContext = true ∧ lowState.carrierInput - lowState.beatInput / 2 ≤ 0 ∧
    (deriveLeft lowState.carrierInput lowState.beatInput =
       lowState.carrierInput - lowState.beatInput / 2 ∧
     deriveLeft lowState.carrierInput lowState.beatInput ≤ 0 ∧
     AudioEvent.oscFreqSet lowState.nextNodeId
       (lowState.carrierInput - lowState.beatInput / 2) lowState.currentTime
       ∈ (play lowState).events) :=
  ⟨rfl, by norm_num [lowState, initState],
   derive_no_floor_applied lowState rfl (by norm_num [lowState, initState])⟩

/-- Counterexample to claim C3: from a running state, a second play() is
not an AlreadyRunning no-op — it overwrites the left oscillator handle
(0 becomes 7), allocates seven more nodes, starts a fresh oscillator, and
never stops the first session's oscillator 0. -/
theorem play_while_running_counterexample :
    runningState.isPlaying = true ∧
    runningState.leftOscillator = some 0 ∧
    (play runningState).leftOscillator = some 7 ∧
    (play runningState).nextNodeId = 14 ∧
    AudioEvent.oscStart 7 ∈ (play runningState).events ∧
    AudioEvent.oscStop 0 ∉ (play runningState).events := by
  refine ⟨by simp [runningState, play, initState], by simp [runningState, play, initState],
    by simp [runningState, play, initState], by simp [runningState, play, initState], ?_, ?_⟩
  · simp [runningState, play, initState]
  · simp [runningState, play, initState]

/-- Claim C3 as amended: play() invoked while Running performs no
AlreadyRunning check — it builds a second full set of audio nodes,
overwrites the oscillator and gain handles, stays Running, and stops none
of the first session's oscillators; the guard exists only in
togglePlayback, which routes to pause() when isPlaying is true. -/
theorem play_while_running_rebuilds (s : EngineState) (hc : s.hasContext = true)
    (hp : s.isPlaying = true) :
    (play s).leftOscillator = some s.nextNodeId ∧
    (play s).rightOscillator = some (s.nextNodeId + 1) ∧
    (play s).gainNode = some (s.nextNodeId + 4) ∧
    (play s).nextNodeId = s.nextNodeId + 7 ∧
    (play s).isPlaying = true ∧
    (∀ m, AudioEvent.oscStop m ∈ (play s).events ↔ AudioEvent.oscStop m ∈ s.events) ∧
    togglePlayback s = pause s := by
  refine ⟨by simp [play, hc], by simp [play, hc], by simp [play, hc], by simp [play, hc],
    by simp [play, hc], ?_, by simp [togglePlayback, hp]⟩
  intro m
  simp [play, hc]

/-- Witness for the amended C3 at the state reached by one play() from
`initState`. -/
theorem play_while_running_rebuilds_witness :
    runningState.hasContext = true ∧ runningState.isPlaying = true ∧
    ((play runningState).leftOscillator = some runningState.nextNodeId ∧
     (play runningState).rightOscillator = some (runningState.nextNodeId + 1) ∧
     (play runningState).gainNode = some (runningState.nextNodeId + 4) ∧
     (play runningState).nextNodeId = runningState.nextNodeId + 7 ∧
     (play runningState).isPlaying = true ∧
     (∀ m, AudioEvent.oscStop m ∈ (play runningState).events ↔
        AudioEvent.oscStop m ∈ runningState.events) ∧
     togglePlayback runningState = pause runningState) :=
  ⟨by simp [runningState, play, initState], by simp [runningState, play, initState],
   play_while_running_rebuilds runningState (by simp [runningState, play, initState])
     (by simp [runningState, play, initState])⟩

/-- Claim C4: from an idle state, play() then stop() returns the engine to
Idle with no dangling audio nodes — the running flag is cleared, both
oscillator handles are nulled, the timer interval is cancelled, the start
time is cleared, every started oscillator has been stopped — and a second
stop() changes nothing. -/
theorem start_stop_idle (s : EngineState) (hc : s.hasContext = true)
    (hp : s.isPlaying = false) (hl : s.leftOscillator = none) (hr : s.rightOscillator = none)
    (he : s.events = []) :
    (stop (play s)).isPlaying = false ∧
    (stop (play s)).leftOscillator = none ∧
    (stop (play s)).rightOscillator = none ∧
    (stop (play s)).timerInterval = false ∧
    (stop (play s)).startTime = none ∧
    (∀ m, AudioEvent.oscStart m ∈ (stop (play s)).events →
      AudioEvent.oscStop m ∈ (stop (play s)).events) ∧
    stop (stop (play s)) = stop (play s) := by
  refine ⟨by simp, by simp, by simp, by simp, by simp, ?_, stop_idem (play s)⟩
  intro m hm
  simp [stop, pause, play, stopTimer, releaseWakeLock, hc, he] at hm ⊢
  rcases hm with rfl | rfl
  · simp
  · simp

/-- Witness for C4 at `initState`. -/
theorem start_stop_idle_witness :
    initState.hasContext = true ∧ initState.isPlaying = false ∧
    initState.leftOscillator = none ∧ initState.rightOscillator = none ∧
    initState.events = [] ∧
    ((stop (play initState)).isPlaying = false ∧
     (stop (play initState)).leftOscillator = none ∧
     (stop (play initState)).rightOscillator = none ∧
     (stop (play initState)).timerInterval = false ∧
     (stop (play initState)).startTime = none ∧
     (∀ m, AudioEvent.oscStart m ∈ (stop (play initState)).events →
       AudioEvent.oscStop m ∈ (stop (play initState)).events) ∧
     stop (stop (play initState)) = stop (play initState)) :=
  ⟨rfl, rfl, rfl, rfl, rfl, start_stop_idle initState rfl rfl rfl rfl rfl⟩

/-- Claim C5: loadPreset "meditation" sets the playback parameters to
exactly carrier 400 Hz, beat 6 Hz, volume 40 %; and for every preset name
outside the fixed catalog, loadPreset is a silent no-op. -/
theorem loadPreset_meditation_and_unknown (s : EngineState) (nm : String)
    (h1 : nm ≠ "meditation") (h2 : nm ≠ "focus") (h3 : nm ≠ "sleep") (h4 : nm ≠ "creativity") :
    (loadPreset s "meditation").carrierInput = 400 ∧
    (loadPreset s "meditation").beatInput = 6 ∧
    (loadPreset s "meditation").volumeInput = 40 ∧
    loadPreset s nm = s := by
  have hm : presets "meditation" = some ⟨400, 6, 40⟩ := by simp [presets]
  have hn : presets nm = none := by simp [presets, h1, h2, h3, h4]
  refine ⟨?_, ?_, ?_, by simp [loadPreset, hn]⟩ <;> simp [loadPreset, hm]

/-- Witness for C5 at `initState` and the unknown preset name "xyz". -/
theorem loadPreset_meditation_and_unknown_witness :
    ("xyz" ≠ "meditation" ∧ "xyz" ≠ "focus" ∧ "xyz" ≠ "sleep" ∧ "xyz" ≠ "creativity") ∧
    ((loadPreset initState "meditation").carrierInput = 400 ∧
     (loadPreset initState "meditation").beatInput = 6 ∧
     (loadPreset initState "meditation").volumeInput = 40 ∧
     loadPreset initState "xyz" = initState) :=
  ⟨⟨by decide, by decide, by decide, by decide⟩,
   loadPreset_meditation_and_unknown initState "xyz" (by decide) (by decide) (by decide)
     (by decide)⟩

/-- Claim C6: selecting band "alpha" sets the beat to 10 Hz and resets the
carrier to 400 Hz regardless of the prior carrier value; and, for any of
the five named bands, setFrequencyBand sets the beat to the band's default
and always overrides the carrier to 400 Hz. -/
theorem setFrequencyBand_band_defaults (s : EngineState) (nm : String) (b : Band)
    (hb : bands nm = some b) :
    (∀ s2, setFrequencyBand s "alpha" = some s2 → s2.beatInput = 10 ∧ s2.carrierInput = 400) ∧
    (setFrequencyBand s "alpha").isSome ∧
    (∀ s2, setFrequencyBand s nm = some s2 → s2.beatInput = b.default ∧ s2.carrierInput = 400) := by
  have ha : bands "alpha" = some ⟨8, 13, 10⟩ := by simp [bands]
  refine ⟨?_, ?_, ?_⟩
  · intro s2 h
    unfold setFrequencyBand at h
    rw [ha] at h
    simp only [Option.some.injEq] at h
    subst h
    simp
  · unfold setFrequencyBand
    rw [ha]
    simp
  · intro s2 h
    unfold setFrequencyBand at h
    rw [hb] at h
    simp only [Option.some.injEq] at h
    subst h
    simp

/-- Witness for C6 at `initState` with the band "alpha" itself. -/
theorem setFrequencyBand_band_defaults_witness :
    bands "alpha" = some ⟨8, 13, 10⟩ ∧
    ((∀ s2, setFrequencyBand initState "alpha" = some s2 →
        s2.beatInput = 10 ∧ s2.carrierInput = 400) ∧
     (setFrequencyBand initState "alpha").isSome ∧
     (∀ s2, setFrequencyBand initState "alpha" = some s2 →
        s2.beatInput = Band.default ⟨8, 13, 10⟩ ∧ s2.carrierInput = 400)) :=
  ⟨by simp [bands], setFrequencyBand_band_defaults initState "alpha" ⟨8, 13, 10⟩ (by simp [bands])⟩

/-- The state reached by one play() from `initState` with the audio clock
still at 0, so the captured start time is the falsy value 0. -/
def zeroStartState : EngineState := play { initState with currentTime := 0 }

/-- Counterexample to claim C7: a session started at engine clock 0 is
Running with the timer interval registered, yet after 3 simulated seconds
the tick leaves the readout at "00:00" instead of "00:03" — the JS guard
`if (this.startTime)` treats the captured start clock 0 as falsy and skips
every update. -/
theorem timer_zero_start_counterexample :
    zeroStartState.isPlaying = true ∧
    zeroStartState.startTime = some 0 ∧
    zeroStartState.timerInterval = true ∧
    (advanceClock zeroStartState 3).currentTime = 3 ∧
    (timerTick (advanceClock zeroStartState 3)).timerText = "00:00" ∧
    (timerTick (advanceClock zeroStartState 3)).timerText ≠ "00:03" := by
  refine ⟨by simp [zeroStartState, play, initState], by simp [zeroStartState, play, initState],
    by simp [zeroStartState, play, initState],
    by simp [advanceClock, zeroStartState, play, initState], ?_, ?_⟩
  · simp [timerTick, advanceClock, zeroStartState, play, initState]
  · simp [timerTick, advanceClock, zeroStartState, play, initState]

/-- Claim C7 as amended: while Running with a non-zero captured start
clock, each tick computes elapsed = currentClock − startClock from the
engine clock and renders it MM:SS zero-padded with no upper bound on
minutes (6003 s formats as "100:03"); 3 seconds past such a start instant
the readout is "00:03", and after stop() it is "00:00". When the session
started at engine clock exactly 0, the falsy `if (this.startTime)` guard
skips the update and the readout keeps its prior text. -/
theorem timer_elapsed_format (s : EngineState) (t0 : ℚ) (h0 : s.startTime = some t0)
    (hne : t0 ≠ 0) (hint : s.timerInterval = true) (h3 : s.currentTime = t0 + 3) :
    (timerTick s).timerText = formatElapsed (s.currentTime - t0) ∧
    (timerTick s).timerText = "00:03" ∧
    (stop (timerTick s)).timerText = "00:00" ∧
    formatElapsed 6003 = "100:03" ∧
    (∀ s2 : EngineState, s2.timerInterval = true → s2.startTime = some 0 →
      (timerTick s2).timerText = s2.timerText) := by
  have htick : timerTick s = { s with timerText := formatElapsed (s.currentTime - t0) } := by
    unfold timerTick
    simp [hint, h0, hne]
  have helapsed : s.currentTime - t0 = 3 := by rw [h3]; ring
  refine ⟨by rw [htick], ?_, by simp, formatElapsed_hundred, ?_⟩
  · rw [htick]
    show formatElapsed (s.currentTime - t0) = "00:03"
    rw [helapsed, formatElapsed_three]
  · intro s2 h1 h2
    unfold timerTick
    simp [h1, h2]

/-- Witness for the amended C7 at `timerState` (started at clock 5,
sampled at 8). -/
theorem timer_elapsed_format_witness :
    timerState.startTime = some 5 ∧ (5 : ℚ) ≠ 0 ∧ timerState.timerInterval = true ∧
    timerState.currentTime = 5 + 3 ∧
    ((timerTick timerState).timerText = formatElapsed (timerState.currentTime - 5) ∧
     (timerTick timerState).timerText = "00:03" ∧
     (stop (timerTick timerState)).timerText = "00:00" ∧
     formatElapsed 6003 = "100:03" ∧
     (∀ s2 : EngineState, s2.timerInterval = true → s2.startTime = some 0 →
       (timerTick s2).timerText = s2.timerText)) :=
  ⟨rfl, by norm_num, rfl, by norm_num [timerState, initState],
   timer_elapsed_format timerState 5 rfl (by norm_num) rfl
     (by norm_num [timerState, initState])⟩

/-- Counterexample to claim C8: updateVolume at 150 % schedules a gain of
3/2 on the master gain node — the value is not clamped into [0,1]. -/
theorem updateVolume_no_clamp_counterexample :
    (updateVolume gainState 150).events = [AudioEvent.gainSet 4 (3 / 2) 5] ∧
    ¬ ((3 : ℚ) / 2 ≤ 1) := by
  constructor
  · simp [updateVolume, gainState, initState]
    norm_num
  · norm_num

/-- Claim C8 as amended: updateVolume applies volume/100 to the master
gain directly, with no clamping at the model boundary — whatever
percentage the caller passes is divided by 100 and scheduled as-is. -/
theorem updateVolume_unclamped (s : EngineState) (v : ℚ) (n : Nat)
    (hg : s.gainNode = some n) :
    (updateVolume s v).events = s.events ++ [AudioEvent.gainSet n (v / 100) s.currentTime] := by
  simp [updateVolume, hg]

/-- Witness for the amended C8 at `gainState` with input 150. -/
theorem updateVolume_unclamped_witness :
    gainState.gainNode = some 4 ∧
    (updateVolume gainState 150).events =
      gainState.events ++ [AudioEvent.gainSet 4 (150 / 100) gainState.currentTime] :=
  ⟨rfl, updateVolume_unclamped gainState 150 4 rfl⟩

/-- Claim C9: for every band name outside the five-band catalog the
unguarded `this.bands[band].default` access throws (modelled as `none`),
so unknown-band selection crashes — unlike loadPreset, which silently
no-ops on every unknown preset name. -/
theorem setFrequencyBand_unknown_throws (s : EngineState) (nm : String)
    (h1 : nm ≠ "delta") (h2 : nm ≠ "theta") (h3 : nm ≠ "alpha") (h4 : nm ≠ "beta")
    (h5 : nm ≠ "gamma") :
    setFrequencyBand s nm = none ∧
    (∀ m, presets m = none → loadPreset s m = s) := by
  constructor
  · have hn : bands nm = none := by simp [bands, h1, h2, h3, h4, h5]
    unfold setFrequencyBand
    rw [hn]
  · intro m hm
    simp [loadPreset, hm]

/-- Witness for C9 at `initState` with the unknown band name "xyz". -/
theorem setFrequencyBand_unknown_throws_witness :
    ("xyz" ≠ "delta" ∧ "xyz" ≠ "theta" ∧ "xyz" ≠ "alpha" ∧ "xyz" ≠ "beta" ∧ "xyz" ≠ "gamma") ∧
    (setFrequencyBand initState "xyz" = none ∧
     (∀ m, presets m = none → loadPreset initState m = initState)) :=
  ⟨⟨by decide, by decide, by decide, by decide, by decide⟩,
   setFrequencyBand_unknown_throws initState "xyz" (by decide) (by decide) (by decide)
     (by decide) (by decide)⟩

/-- Claim C10: pause() and stop() null both oscillator handles but never
the master gain handle; once gainNode is set it stays set under every
subsequent operation sequence, and updateVolume while Idle still schedules
a gain change on the retained node of the torn-down session. -/
theorem gainNode_retained_forever (s sEnd : EngineState) (v : ℚ) (n : Nat) (ops : List Op)
    (hg : s.gainNode = some n) (hidle : s.isPlaying = false)
    (hrun : runOps s ops = some sEnd) :
    (pause s).leftOscillator = none ∧
    (pause s).rightOscillator = none ∧
    (pause s).gainNode = some n ∧
    (stop s).gainNode = some n ∧
    sEnd.gainNode.isSome ∧
    (updateVolume s v).events = s.events ++ [AudioEvent.gainSet n (v / 100) s.currentTime] := by
  refine ⟨by simp, by simp, by simp [hg], by simp [hg],
    runOps_gainNode_isSome ops s sEnd hrun (by simp [hg]), ?_⟩
  simp [updateVolume, hg]

/-- Witness for C10 at the idle state left behind by play() then stop()
from `initState`, running one further timer tick. -/
theorem gainNode_retained_forever_witness :
    (stop (play initState)).gainNode = some 4 ∧
    (stop (play initState)).isPlaying = false ∧
    runOps (stop (play initState)) [Op.timerTick] = some (timerTick (stop (play initState))) ∧
    ((pause (stop (play initState))).leftOscillator = none ∧
     (pause (stop (play initState))).rightOscillator = none ∧
     (pause (stop (play initState))).gainNode = some 4 ∧
     (stop (stop (play initState))).gainNode = some 4 ∧
     (timerTick (stop (play initState))).gainNode.isSome ∧
     (updateVolume (stop (play initState)) 70).events =
       (stop (play initState)).events ++
         [AudioEvent.gainSet 4 (70 / 100) (stop (play initState)).currentTime]) :=
  ⟨by simp [play, initState], by simp, rfl,
   gainNode_retained_forever (stop (play initState)) (timerTick (stop (play initState))) 70 4
     [Op.timerTick] (by simp [play, initState]) (by simp) rfl⟩
